import Mathlib

/-!
Shallow embedding of the quantai orchestrator (src/main.py and
src/main.upgraded.py): configuration loading, logging setup, the
self-improving prompt invoker, the per-iteration executor
`_run_loop_once`, the stop flag installed by `graceful_killer`, and the
polling driver loop in `main`.  Environment access is modelled as an
association list (the state of `os.environ` after `load_dotenv`).
Python exceptions are modelled as values of `PyExc` (instances of the
`Exception` class, which is what every `except Exception` clause in the
source catches); a fallible computation returns `Except PyExc α` or
`Except String α`.
-/

namespace QuantAI

/-- A process environment: the state of `os.environ` after `load_dotenv()`. -/
abbrev Env := List (String × String)

/-- Model of `os.getenv(k)` / `env.get(k)`: the first binding of `k`, if any. -/
def lookupEnv (env : Env) (k : String) : Option String :=
  (env.find? (fun p => p.1 == k)).map (fun p => p.2)

/-- Model of `os.getenv(k, d)`: the binding of `k`, or the default `d`. -/
def getenv (env : Env) (k d : String) : String :=
  (lookupEnv env k).getD d

/-- Model of `dict.setdefault(k, v)` on an environment copy: inserts `(k, v)`
only when `k` is absent; an existing binding is kept unchanged. -/
def setdefaultEnv (env : Env) (k v : String) : Env :=
  if (lookupEnv env k).isSome then env else env ++ [(k, v)]

/-- Characters stripped by Python `int(str)` around the literal
(the ASCII whitespace accepted by `str.strip()`). -/
def pyIsSpace (c : Char) : Bool :=
  c = ' ' || c = '\t' || c = '\n' || c = '\r' || c.toNat = 11 || c.toNat = 12

/-- Digit accumulation for Python `int(str)`: decimal digits with single
underscores allowed strictly between digits.  `lastUnderscore` records
whether the previous character was an underscore. -/
def pyDigitsAux : Nat → Bool → List Char → Option Nat
  | acc, lastUnderscore, [] => if lastUnderscore then none else some acc
  | acc, lastUnderscore, c :: rest =>
    if c.isDigit then pyDigitsAux (acc * 10 + (c.toNat - 48)) false rest
    else if c = '_' then
      if lastUnderscore then none else pyDigitsAux acc true rest
    else none

/-- The digit part of a Python decimal integer literal: at least one digit,
underscores only between digits. -/
def pyParseDigits : List Char → Option Nat
  | [] => none
  | c :: rest => if c.isDigit then pyDigitsAux (c.toNat - 48) false rest else none

/-- Model of Python `int(s)` (base 10, ASCII): strip surrounding whitespace,
optional sign, then digits; `none` models the `ValueError` raised on an
invalid literal. -/
def parsePyInt (s : String) : Option Int :=
  let cs := ((s.toList.dropWhile pyIsSpace).reverse.dropWhile pyIsSpace).reverse
  match cs with
  | '+' :: rest => (pyParseDigits rest).map (fun n => (n : Int))
  | '-' :: rest => (pyParseDigits rest).map (fun n => -(n : Int))
  | rest => (pyParseDigits rest).map (fun n => (n : Int))

/-- Model of `str.lower()` on the ASCII strings used for flag values. -/
def pyLowerChar (c : Char) : Char :=
  if 65 ≤ c.toNat ∧ c.toNat ≤ 90 then Char.ofNat (c.toNat + 32) else c

/-- Model of `str.lower()` applied to a whole string. -/
def pyLower (s : String) : String :=
  String.mk (s.toList.map pyLowerChar)

/-- The `Config` dataclass of src/main.py. -/
structure Config where
  db_path : String
  interval_min : Int
  enable_llm : Bool
  approvals_enforced : Bool
  self_improve_each_loop : Bool
deriving Repr, DecidableEq

/-- `load_config` of src/main.py (lines 101-114): reads `DB_PATH`,
`CHECK_INTERVAL_MIN` (via `int()`, default "30"), `ENABLE_LLM`,
`ENFORCE_APPROVALS` and `SELF_IMPROVE_EACH_LOOP` from the environment.
The `Except` error is the `ValueError` raised by `int()` on an invalid
interval, which propagates out of `load_config`. -/
def load_config (env : Env) : Except String Config :=
  match parsePyInt (getenv env "CHECK_INTERVAL_MIN" "30") with
  | none => .error "ValueError: invalid literal for int() with base 10"
  | some n =>
    .ok { db_path := getenv env "DB_PATH" "./data/income_ai.db"
          interval_min := n
          enable_llm := pyLower (getenv env "ENABLE_LLM" "false") == "true"
          approvals_enforced := pyLower (getenv env "ENFORCE_APPROVALS" "true") != "false"
          self_improve_each_loop :=
            pyLower (getenv env "SELF_IMPROVE_EACH_LOOP" "false") == "true" }

/-- The `Config` dataclass of src/main.upgraded.py. -/
structure ConfigUpgraded where
  db_path : String
  interval_min : Int
  auto_process_all : Bool
  enable_llm : Bool
  approvals_enforced : Bool
  run_self_improving_each_loop : Bool
deriving Repr, DecidableEq

/-- `load_config` of src/main.upgraded.py (lines 69-78).  Differences from
src/main.py: the extra `AUTO_PROCESS_ALL` field, `enable_llm` is also set
by `USE_REAL_OPENAI`, and `approvals_enforced` compares equal to "true"
instead of not-equal to "false". -/
def load_config_upgraded (env : Env) : Except String ConfigUpgraded :=
  match parsePyInt (getenv env "CHECK_INTERVAL_MIN" "30") with
  | none => .error "ValueError: invalid literal for int() with base 10"
  | some n =>
    .ok { db_path := getenv env "DB_PATH" "./data/income_ai.db"
          interval_min := n
          auto_process_all := pyLower (getenv env "AUTO_PROCESS_ALL" "false") == "true"
          enable_llm := (pyLower (getenv env "ENABLE_LLM" "false") == "true")
            || (pyLower (getenv env "USE_REAL_OPENAI" "false") == "true")
          approvals_enforced := pyLower (getenv env "ENFORCE_APPROVALS" "true") == "true"
          run_self_improving_each_loop :=
            pyLower (getenv env "SELF_IMPROVE_EACH_LOOP" "false") == "true" }

/-- One entry written to a log sink: a level string and the formatted
message; `excInfo` records whether the entry carries a stack trace
(`logger.exception` sets it). -/
structure LogEntry where
  level : String
  msg : String
  excInfo : Bool
deriving Repr, DecidableEq

/-- A handler attached to the `income_ai.orchestrator` logger in
src/main.py: a `FileHandler` on a path, or a `StreamHandler`. -/
inductive LogHandler where
  | file (path : String)
  | stream
deriving Repr, DecidableEq

/-- The mutable state of the process-global logger object returned by
`logging.getLogger("income_ai.orchestrator")`. -/
structure LoggerState where
  level : Option Nat
  handlers : List LogHandler
deriving Repr, DecidableEq

/-- `setup_logging` of src/main.py (lines 116-137): if the logger already
has handlers, return it unchanged; otherwise set level INFO (20) and attach
a `FileHandler` on `LOG_FILE` when that variable is set, else a
`StreamHandler`. -/
def setup_logging (logFile : Option String) (st : LoggerState) : LoggerState :=
  if st.handlers ≠ [] then st
  else
    match logFile with
    | some p => { level := some 20, handlers := [LogHandler.file p] }
    | none => { level := some 20, handlers := [LogHandler.stream] }

/-- Outcome of the subprocess interaction inside the `try` block of
`run_self_improving_prompt_once`: `Popen` itself raising, `communicate`
raising `TimeoutExpired` after the 120 s wait, or the child completing
with captured stdout, stderr and an exit status. -/
inductive LaunchResult where
  | launchError (msg : String)
  | timeoutExpired
  | completed (out err : String) (exitCode : Int)
deriving Repr, DecidableEq

/-- The external facts one call to `run_self_improving_prompt_once`
depends on: whether `os.path.exists(prompt_script_path)` holds, the
parent environment copied by `os.environ.copy()`, and how the subprocess
interaction turns out. -/
structure InvokerCtx where
  scriptExists : Bool
  parentEnv : Env
  launch : LaunchResult
deriving Repr, DecidableEq

/-- Observable effects of one call to `run_self_improving_prompt_once`.
`launched` records whether `Popen` created a child; `childEnv`, `stdinData`
and `timeoutSeconds` record what was passed to `Popen`/`communicate`
(`none` when that point in the code was not reached); `logs` are the
entries written to the orchestrator process log.  The function models a
call that returns normally in every case: every exception path in the
source is caught by its own `except` clause. -/
structure InvokerResult where
  launched : Bool
  childEnv : Option Env
  stdinData : Option String
  timeoutSeconds : Option Nat
  logs : List LogEntry
deriving Repr, DecidableEq

/-- The default seed prompt of `run_self_improving_prompt_once`. -/
def defaultSeed : String :=
  "Calibrate on: produce a 3–5 step plan to improve orchestrator reliability."

/-- `run_self_improving_prompt_once` of src/main.py (lines 46-69; the
src/main.upgraded.py copy at lines 34-55 is identical apart from the
logger name).  Missing script: return immediately.  Otherwise copy the
environment, `setdefault` `MAX_ITERATIONS` to "1", build the seed, and run
the child under a `try` that logs any exception as a WARNING.  On
completion stdout is logged at INFO and stderr at WARNING only when
non-empty; the exit status is never examined. -/
def run_self_improving_prompt_once (ctx : InvokerCtx) (userSeed : Option String) :
    InvokerResult :=
  if ctx.scriptExists = false then
    { launched := false, childEnv := none, stdinData := none,
      timeoutSeconds := none, logs := [] }
  else
    let env := setdefaultEnv ctx.parentEnv "MAX_ITERATIONS" "1"
    let seed := userSeed.getD defaultSeed
    match ctx.launch with
    | .launchError m =>
      { launched := false, childEnv := some env, stdinData := none,
        timeoutSeconds := none,
        logs := [⟨"WARNING", "Self-improving prompt run failed: " ++ m, false⟩] }
    | .timeoutExpired =>
      { launched := true, childEnv := some env,
        stdinData := some (seed ++ "\nexit\n"), timeoutSeconds := some 120,
        logs := [⟨"WARNING",
          "Self-improving prompt run failed: Command timed out after 120 seconds",
          false⟩] }
    | .completed out err _ =>
      { launched := true, childEnv := some env,
        stdinData := some (seed ++ "\nexit\n"), timeoutSeconds := some 120,
        logs := [⟨"INFO", "[SelfImproving] stdout:\n" ++ out, false⟩] ++
          (if err ≠ "" then
            [⟨"WARNING", "[SelfImproving] stderr:\n" ++ err, false⟩]
          else []) }

/-- A Python exception value raised by the planner: an instance of the
`Exception` class (what `except Exception as exc` catches), carrying its
`str()` rendering. -/
structure PyExc where
  msg : String
deriving Repr, DecidableEq

/-- Observable effects of one call to `_run_loop_once`: entries written
through `mem.log`, entries written to the process logger, whether
`run_self_improving_prompt_once` was called, and whether the `except`
handler ran (the iteration was classified as failed).  The function
returns normally in every case: the handler catches the planner exception
and does not re-raise, and the invoker call never raises. -/
structure LoopResult where
  memLogs : List LogEntry
  procLogs : List LogEntry
  invokerTriggered : Bool
  failed : Bool
deriving Repr, DecidableEq

/-- `_run_loop_once` of src/main.py (lines 152-163).  The `try` body runs
`meta.loop_once()` and then, only when that returned without raising and
the flag is set, the self-improvement invoker; the `except Exception`
handler writes `mem.log("ERROR", ...)` and `logger.exception(...)` and
returns.  The planner outcome `po` is the behaviour of the external
collaborator `meta.loop_once()`. -/
def _run_loop_once (po : Except PyExc Unit) (cfg : Config) (ctx : InvokerCtx) :
    LoopResult :=
  match po with
  | .ok _ =>
    if cfg.self_improve_each_loop then
      let r := run_self_improving_prompt_once ctx none
      { memLogs := [], procLogs := r.logs, invokerTriggered := true, failed := false }
    else
      { memLogs := [], procLogs := [], invokerTriggered := false, failed := false }
  | .error e =>
    { memLogs := [⟨"ERROR", "Loop error: " ++ e.msg, false⟩],
      procLogs := [⟨"ERROR", "Planner loop error", true⟩],
      invokerTriggered := false, failed := true }

/-- `_run_loop_once` of src/main.upgraded.py (lines 103-110): identical
control flow to the src/main.py version; the only differences are the flag
name read from the config and the process-log message "Loop error". -/
def _run_loop_once_upgraded (po : Except PyExc Unit) (cfg : ConfigUpgraded)
    (ctx : InvokerCtx) : LoopResult :=
  match po with
  | .ok _ =>
    if cfg.run_self_improving_each_loop then
      let r := run_self_improving_prompt_once ctx none
      { memLogs := [], procLogs := r.logs, invokerTriggered := true, failed := false }
    else
      { memLogs := [], procLogs := [], invokerTriggered := false, failed := false }
  | .error e =>
    { memLogs := [⟨"ERROR", "Loop error: " ++ e.msg, false⟩],
      procLogs := [⟨"ERROR", "Loop error", true⟩],
      invokerTriggered := false, failed := true }

/-- Modelled from the spec: the Scheduler used by `main`
(`schedule.every(cfg.interval_min).minutes.do(...)` together with
`schedule.run_pending()`) lives in the third-party `schedule` library, whose
source is not under src/.  Following the contract in section 4.1 of the
spec, a schedule entry holds the fixed interval and the next-due timestamp,
both in abstract time units (seconds of wall-clock time). -/
structure ScheduleEntry where
  interval : Nat
  nextDue : Nat
deriving Repr, DecidableEq

/-- Modelled from the spec: `is_due(now)` holds iff `now >= next_due`. -/
def is_due (e : ScheduleEntry) (now : Nat) : Bool :=
  e.nextDue ≤ now

/-- Modelled from the spec: `mark_fired(now)` sets `next_due = now + interval`,
rescheduling from the firing time (missed ticks are coalesced). -/
def mark_fired (e : ScheduleEntry) (now : Nat) : ScheduleEntry :=
  { e with nextDue := now + e.interval }

/-- State of the polling loop of `main` in src/main.py (lines 180-186): the
current time, the schedule entry, the `stop["flag"]` cell created by
`graceful_killer`, the start times of the iterations run so far, and the two
log sinks accumulated across iterations. -/
structure DriverState where
  time : Nat
  sched : ScheduleEntry
  stopFlag : Bool
  firedAt : List Nat
  memLogs : List LogEntry
  procLogs : List LogEntry
deriving Repr, DecidableEq

/-- One pass of `while not stop["flag"]: schedule.run_pending(); time.sleep(1)`.
If the flag is already true the loop body does not run (the loop has
exited: the state is terminal).  Otherwise `run_pending` runs the job when
it is due — `_run_loop_once` with the planner outcome for the current time,
which returns normally whatever that outcome is — and reschedules it; then
the process sleeps one quantum.  `sig` tells whether a SIGINT/SIGTERM was
delivered during this pass; the installed handler (from `graceful_killer`,
src/main.py lines 139-150) sets the flag to true and nothing ever resets
it. -/
def tickStep (sig : Bool) (po : Nat → Except PyExc Unit) (cfg : Config)
    (ctx : InvokerCtx) (s : DriverState) : DriverState :=
  if s.stopFlag then s
  else
    let s1 :=
      if is_due s.sched s.time then
        let r := _run_loop_once (po s.time) cfg ctx
        { s with sched := mark_fired s.sched s.time
                 firedAt := s.firedAt ++ [s.time]
                 memLogs := s.memLogs ++ r.memLogs
                 procLogs := s.procLogs ++ r.procLogs }
      else s
    { s1 with time := s1.time + 1
              stopFlag := if sig then true else s1.stopFlag }

/-- Run the polling loop for `n` passes starting at pass index `k`;
`sig t` tells whether a termination signal is delivered during pass `t`. -/
def driverRunFrom (sig : Nat → Bool) (po : Nat → Except PyExc Unit)
    (cfg : Config) (ctx : InvokerCtx) : Nat → Nat → DriverState → DriverState
  | _, 0, s => s
  | k, Nat.succ n, s =>
    driverRunFrom sig po cfg ctx (k + 1) n (tickStep (sig k) po cfg ctx s)

/-- Run the polling loop for `n` passes from its first pass. -/
def driverRun (sig : Nat → Bool) (po : Nat → Except PyExc Unit) (cfg : Config)
    (ctx : InvokerCtx) (n : Nat) (s : DriverState) : DriverState :=
  driverRunFrom sig po cfg ctx 0 n s

/-- The state `main` enters the loop with at time `t0`: the stop flag
returned by `graceful_killer` is false, no iteration has run, and
`schedule.every(I).minutes` has set the first due time to `t0 + I`. -/
def initialDriverState (I t0 : Nat) : DriverState :=
  { time := t0, sched := { interval := I, nextDue := t0 + I }, stopFlag := false,
    firedAt := [], memLogs := [], procLogs := [] }

/-- The scheduling-relevant projection of a driver state: everything except
the accumulated log entries. -/
def skel (s : DriverState) : Nat × ScheduleEntry × Bool × List Nat :=
  (s.time, s.sched, s.stopFlag, s.firedAt)

/-- Outcome of the startup sequence of `main`: either the process dies with
an exception before the loop is entered, or it reaches the polling loop
with a loaded configuration. -/
inductive StartupOutcome where
  | fatal (msg : String)
  | entersLoop (cfg : Config)
deriving Repr, DecidableEq

/-- The startup sequence of `main` in src/main.py (lines 165-183):
`load_config()` is the first statement; an exception there propagates and
the process dies before logging setup, collaborator construction, job
scheduling and the polling loop.  On success the process reaches the loop
with the loaded configuration. -/
def mainStartup (env : Env) : StartupOutcome :=
  match load_config env with
  | .error m => .fatal m
  | .ok cfg => .entersLoop cfg

/-- The configuration produced by `load_config` of src/main.py in an empty
environment (all defaults). -/
def cfgDefault : Config :=
  { db_path := "./data/income_ai.db", interval_min := 30, enable_llm := false,
    approvals_enforced := true, self_improve_each_loop := false }

/-- The default configuration with the self-improve flag set
(`SELF_IMPROVE_EACH_LOOP=true`). -/
def cfgSelfImprove : Config := { cfgDefault with self_improve_each_loop := true }

/-- The configuration produced by `load_config` of src/main.upgraded.py in
an empty environment (all defaults). -/
def cfgUpgradedDefault : ConfigUpgraded :=
  { db_path := "./data/income_ai.db", interval_min := 30, auto_process_all := false,
    enable_llm := false, approvals_enforced := true,
    run_self_improving_each_loop := false }

/-- The upgraded default configuration with the self-improve flag set. -/
def cfgUpgradedSelfImprove : ConfigUpgraded :=
  { cfgUpgradedDefault with run_self_improving_each_loop := true }

/-- An invoker context where the script exists, the parent environment is
empty, and the child completes cleanly. -/
def ctxChildOk : InvokerCtx :=
  { scriptExists := true, parentEnv := [], launch := .completed "" "" 0 }

/-- An invoker context where the script path does not exist. -/
def ctxMissingScript : InvokerCtx :=
  { scriptExists := false, parentEnv := [], launch := .completed "" "" 0 }

/-- An invoker context where the child exits with status 2, empty stderr. -/
def ctxExitNonzero : InvokerCtx :=
  { scriptExists := true, parentEnv := [], launch := .completed "done" "" 2 }

/-- An invoker context where `communicate` times out after 120 seconds. -/
def ctxTimeout : InvokerCtx :=
  { scriptExists := true, parentEnv := [], launch := .timeoutExpired }

/-- An invoker context whose parent environment already sets
`MAX_ITERATIONS` to "5". -/
def ctxPresetMaxIter : InvokerCtx :=
  { scriptExists := true, parentEnv := [("MAX_ITERATIONS", "5")],
    launch := .completed "" "" 0 }

/-- A signal trace delivering SIGTERM during loop pass 2 only. -/
def sigAtTwo : Nat → Bool := fun t => t == 2

/-- A planner whose `loop_once` always returns without raising. -/
def plannerAlwaysOk : Nat → Except PyExc Unit := fun _ => .ok ()

/-- Looking a key up in an extended environment falls through to the
appended binding when the key is absent from the original environment. -/
theorem lookupEnv_append_of_none (env : Env) (kv : String × String) (k : String)
    (h : lookupEnv env k = none) :
    lookupEnv (env ++ [kv]) k = lookupEnv [kv] k := by
  unfold lookupEnv at *
  induction env with
  | nil => rfl
  | cons a l ih =>
    by_cases ha : a.1 == k
    · simp [List.find?, ha] at h
    · simp only [List.cons_append, List.find?, ha] at h ⊢
      exact ih h

/-- After `setdefault` on an absent key, the key is bound to the default. -/
theorem lookupEnv_setdefault_self (env : Env) (k v : String)
    (h : lookupEnv env k = none) :
    lookupEnv (setdefaultEnv env k v) k = some v := by
  unfold setdefaultEnv
  rw [h]
  simp only [Option.isSome_none, Bool.false_eq_true, if_false]
  rw [lookupEnv_append_of_none env (k, v) k h]
  simp [lookupEnv, List.find?]

/-- A loop pass taken in a stopped state changes nothing: the `while`
condition has already failed. -/
theorem tickStep_stopped (sig : Bool) (po : Nat → Except PyExc Unit) (cfg : Config)
    (ctx : InvokerCtx) (s : DriverState) (h : s.stopFlag = true) :
    tickStep sig po cfg ctx s = s := by
  simp [tickStep, h]

/-- The stop flag after a pass is the old flag or-ed with the signal: only
a delivered signal sets it and nothing resets it. -/
theorem tickStep_stopFlag (sig : Bool) (po : Nat → Except PyExc Unit) (cfg : Config)
    (ctx : InvokerCtx) (s : DriverState) :
    (tickStep sig po cfg ctx s).stopFlag = (s.stopFlag || sig) := by
  by_cases h : s.stopFlag = true
  · simp [tickStep, h]
  · simp only [Bool.not_eq_true] at h
    cases hsig : sig <;>
      by_cases hdue : is_due s.sched s.time = true <;>
      simp [tickStep, h, hdue]

/-- Once the stop flag is true the loop runs no further pass: any number of
additional passes leaves the state unchanged. -/
theorem driverRunFrom_stopped (sig : Nat → Bool) (po : Nat → Except PyExc Unit)
    (cfg : Config) (ctx : InvokerCtx) (k n : Nat) (s : DriverState)
    (h : s.stopFlag = true) : driverRunFrom sig po cfg ctx k n s = s := by
  induction n generalizing k with
  | zero => rfl
  | succ n ih =>
    simp only [driverRunFrom]
    rw [tickStep_stopped _ _ _ _ _ h]
    exact ih _

/-- Splitting a run of `m + n` passes at pass `m`. -/
theorem driverRunFrom_add (sig : Nat → Bool) (po : Nat → Except PyExc Unit)
    (cfg : Config) (ctx : InvokerCtx) (k m n : Nat) (s : DriverState) :
    driverRunFrom sig po cfg ctx k (m + n) s =
      driverRunFrom sig po cfg ctx (k + m) n (driverRunFrom sig po cfg ctx k m s) := by
  induction m generalizing k s with
  | zero => simp [driverRunFrom]
  | succ m ih =>
    have h1 : m + 1 + n = (m + n) + 1 := by omega
    rw [h1]
    simp only [driverRunFrom]
    rw [ih]
    have h2 : k + 1 + m = k + (m + 1) := by omega
    rw [h2]

/-- A signal delivered during pass `k` leaves the stop flag true after
`k + 1` passes. -/
theorem driverRunFrom_signal_sets_flag (sig : Nat → Bool) (po : Nat → Except PyExc Unit)
    (cfg : Config) (ctx : InvokerCtx) (k : Nat) (s : DriverState)
    (hsig : sig k = true) :
    (driverRunFrom sig po cfg ctx 0 (k + 1) s).stopFlag = true := by
  have h := driverRunFrom_add sig po cfg ctx 0 k 1 s
  rw [Nat.zero_add] at h
  rw [h]
  simp [driverRunFrom, tickStep_stopFlag, hsig]

/-- One loop pass preserves equality of the scheduling-relevant state even
when the planner outcomes, configurations and invoker contexts differ:
iteration results feed only the logs, never the schedule. -/
theorem skel_tickStep (sig : Bool) (po1 po2 : Nat → Except PyExc Unit)
    (cfg1 cfg2 : Config) (ctx1 ctx2 : InvokerCtx) (s1 s2 : DriverState)
    (h : skel s1 = skel s2) :
    skel (tickStep sig po1 cfg1 ctx1 s1) = skel (tickStep sig po2 cfg2 ctx2 s2) := by
  simp only [skel, Prod.mk.injEq] at h
  obtain ⟨ht, hs, hf, hl⟩ := h
  by_cases hstop : s1.stopFlag = true
  · have hstop2 : s2.stopFlag = true := hf ▸ hstop
    simp [tickStep, hstop, hstop2, skel, ht, hs, hf, hl]
  · simp only [Bool.not_eq_true] at hstop
    have hstop2 : s2.stopFlag = false := hf ▸ hstop
    by_cases hdue : is_due s1.sched s1.time = true
    · have hdue2 : is_due s2.sched s2.time = true := by rw [← hs, ← ht]; exact hdue
      simp [tickStep, hstop, hstop2, hdue, hdue2, skel, ht, hs, hf, hl]
    · simp only [Bool.not_eq_true] at hdue
      have hdue2 : is_due s2.sched s2.time = false := by rw [← hs, ← ht]; exact hdue
      simp [tickStep, hstop, hstop2, hdue, hdue2, skel, ht, hs, hf, hl]

/-- Any number of loop passes preserves equality of the scheduling-relevant
state across different planner outcomes, configurations and contexts. -/
theorem skel_driverRunFrom (sig : Nat → Bool) (po1 po2 : Nat → Except PyExc Unit)
    (cfg1 cfg2 : Config) (ctx1 ctx2 : InvokerCtx) (k n : Nat) (s1 s2 : DriverState)
    (h : skel s1 = skel s2) :
    skel (driverRunFrom sig po1 cfg1 ctx1 k n s1) =
      skel (driverRunFrom sig po2 cfg2 ctx2 k n s2) := by
  induction n generalizing k s1 s2 with
  | zero => exact h
  | succ n ih =>
    simp only [driverRunFrom]
    exact ih _ _ _ (skel_tickStep _ _ _ _ _ _ _ _ _ h)

/-- C1: when the planner `loop_once` raises, `_run_loop_once` catches the
exception at the executor boundary: it writes exactly one entry with
severity ERROR through the memory collaborator, exactly one ERROR entry
carrying the exception context (stack trace) to the process log, returns
with the iteration classified failed and nothing re-raised — and the loop
schedule (pass times, due times, stop flag and iteration start times) is
unchanged under any change of planner outcomes, so the next scheduled
iteration still runs.  Stated for both program variants. -/
theorem c1_planner_failure_isolated (e : PyExc) (cfg : Config)
    (cfgU : ConfigUpgraded) (ctx : InvokerCtx) (sig : Nat → Bool)
    (po1 po2 : Nat → Except PyExc Unit) (n : Nat) (s : DriverState) :
    (_run_loop_once (.error e) cfg ctx).memLogs
        = [⟨"ERROR", "Loop error: " ++ e.msg, false⟩]
    ∧ (_run_loop_once (.error e) cfg ctx).procLogs
        = [⟨"ERROR", "Planner loop error", true⟩]
    ∧ (_run_loop_once (.error e) cfg ctx).failed = true
    ∧ (_run_loop_once_upgraded (.error e) cfgU ctx).memLogs
        = [⟨"ERROR", "Loop error: " ++ e.msg, false⟩]
    ∧ (_run_loop_once_upgraded (.error e) cfgU ctx).procLogs
        = [⟨"ERROR", "Loop error", true⟩]
    ∧ skel (driverRun sig po1 cfg ctx n s) = skel (driverRun sig po2 cfg ctx n s) :=
  ⟨rfl, rfl, rfl, rfl, rfl,
    skel_driverRunFrom sig po1 po2 cfg cfg ctx ctx 0 n s s rfl⟩

/-- C2 counterexample: with the self-improve flag set and a planner step
that raises, control jumps from `meta.loop_once()` straight to the
`except` handler, so `run_self_improving_prompt_once` is never called —
the invoker is not triggered after a failed planner step, contrary to the
claim. -/
theorem c2_counterexample :
    cfgSelfImprove.self_improve_each_loop = true
    ∧ (_run_loop_once (.error ⟨"boom"⟩) cfgSelfImprove ctxChildOk).invokerTriggered
        = false := by decide

/-- C2 amended: with the self-improve flag set, `_run_loop_once` triggers
the Self-Improvement Invoker only after a planner step that returned
without raising; when the planner step raises, the invoker is not
triggered.  The outcome inside the invoker never changes the success or
failure classification of the iteration.  Stated for both variants. -/
theorem c2_amended_self_improve_on_success (cfg : Config) (cfgU : ConfigUpgraded)
    (ctx ctx2 : InvokerCtx) (e : PyExc)
    (h : cfg.self_improve_each_loop = true)
    (hU : cfgU.run_self_improving_each_loop = true) :
    (_run_loop_once (.ok ()) cfg ctx).invokerTriggered = true
    ∧ (_run_loop_once (.error e) cfg ctx).invokerTriggered = false
    ∧ (_run_loop_once (.ok ()) cfg ctx).failed = false
    ∧ (_run_loop_once (.ok ()) cfg ctx).failed = (_run_loop_once (.ok ()) cfg ctx2).failed
    ∧ (_run_loop_once_upgraded (.ok ()) cfgU ctx).invokerTriggered = true
    ∧ (_run_loop_once_upgraded (.error e) cfgU ctx).invokerTriggered = false := by
  simp [_run_loop_once, _run_loop_once_upgraded, h, hU]

/-- C2 amended witness: in the default-with-flag configuration a successful
planner step does trigger the invoker. -/
theorem c2_amended_witness :
    (_run_loop_once (.ok ()) cfgSelfImprove ctxChildOk).invokerTriggered = true :=
  (c2_amended_self_improve_on_success cfgSelfImprove cfgUpgradedSelfImprove
    ctxChildOk ctxChildOk ⟨"boom"⟩ rfl rfl).1

/-- C3: when the script path does not reference an existing file,
`run_self_improving_prompt_once` returns at the `os.path.exists` guard as
a silent no-op — no child launched, nothing passed to Popen or
communicate, no log entry written, nothing raised — and the iteration
classification of `_run_loop_once` is the same as with any other invoker
context: it depends only on the planner outcome. -/
theorem c3_missing_script_noop (ctx : InvokerCtx) (seed : Option String)
    (cfg : Config) (po : Except PyExc Unit)
    (h : ctx.scriptExists = false) :
    run_self_improving_prompt_once ctx seed =
      { launched := false, childEnv := none, stdinData := none,
        timeoutSeconds := none, logs := [] }
    ∧ (_run_loop_once po cfg ctx).failed = (_run_loop_once po cfg ctxChildOk).failed := by
  constructor
  · simp [run_self_improving_prompt_once, h]
  · cases po <;> by_cases hf : cfg.self_improve_each_loop <;>
      simp [_run_loop_once, hf]

/-- C3 witness: the no-op result at a concrete missing-script context. -/
theorem c3_missing_script_noop_witness :
    run_self_improving_prompt_once ctxMissingScript none =
      { launched := false, childEnv := none, stdinData := none,
        timeoutSeconds := none, logs := [] } :=
  (c3_missing_script_noop ctxMissingScript none cfgDefault (.ok ()) rfl).1

/-- C4 counterexample: the child exit status is never examined by the
code.  With exit status 2 and empty stderr the call logs only the INFO
stdout entry and no WARNING entry at all, though the claim requires every
non-zero exit to be logged at WARNING severity. -/
theorem c4_counterexample :
    ctxExitNonzero.launch = .completed "done" "" 2
    ∧ (run_self_improving_prompt_once ctxExitNonzero none).logs
        = [⟨"INFO", "[SelfImproving] stdout:\ndone", false⟩]
    ∧ ¬ (∃ en ∈ (run_self_improving_prompt_once ctxExitNonzero none).logs,
          en.level = "WARNING") := by decide

/-- C4 amended: on timeout or on a launch failure the exception is caught
and logged at WARNING severity and the call returns normally; the exit
status is never examined — on completion the call returns normally
regardless of it, logging the captured stdout at INFO and the captured
stderr at WARNING only when stderr is non-empty.  The function returns in
every case (the model is total because every exception path in the source
is caught). -/
theorem c4_amended_warnings (ctx : InvokerCtx) (seed : Option String)
    (h : ctx.scriptExists = true) :
    (ctx.launch = .timeoutExpired →
      (run_self_improving_prompt_once ctx seed).logs
        = [⟨"WARNING",
            "Self-improving prompt run failed: Command timed out after 120 seconds",
            false⟩])
    ∧ (∀ m, ctx.launch = .launchError m →
      (run_self_improving_prompt_once ctx seed).logs
        = [⟨"WARNING", "Self-improving prompt run failed: " ++ m, false⟩])
    ∧ (∀ out err code, ctx.launch = .completed out err code →
      (run_self_improving_prompt_once ctx seed).logs
        = [⟨"INFO", "[SelfImproving] stdout:\n" ++ out, false⟩] ++
          (if err ≠ "" then
            [⟨"WARNING", "[SelfImproving] stderr:\n" ++ err, false⟩]
          else [])) := by
  refine ⟨?_, ?_, ?_⟩
  · intro hl
    simp [run_self_improving_prompt_once, h, hl]
  · intro m hl
    simp [run_self_improving_prompt_once, h, hl]
  · intro out err code hl
    simp [run_self_improving_prompt_once, h, hl]

/-- C4 amended witness: a concrete timeout is logged at WARNING. -/
theorem c4_amended_witness :
    (run_self_improving_prompt_once ctxTimeout none).logs
      = [⟨"WARNING",
          "Self-improving prompt run failed: Command timed out after 120 seconds",
          false⟩] :=
  (c4_amended_warnings ctxTimeout none rfl).1 rfl

/-- C5 counterexample: the code uses `env.setdefault("MAX_ITERATIONS", "1")`,
which keeps an existing value.  With `MAX_ITERATIONS=5` already in the
parent environment the child is launched with "5", not the
single-iteration override "1" the claim promises regardless of the parent
environment. -/
theorem c5_counterexample :
    ctxPresetMaxIter.scriptExists = true
    ∧ (run_self_improving_prompt_once ctxPresetMaxIter none).childEnv
        = some [("MAX_ITERATIONS", "5")]
    ∧ ((run_self_improving_prompt_once ctxPresetMaxIter none).childEnv.map
        (fun env => lookupEnv env "MAX_ITERATIONS")) ≠ some (some "1") := by decide

/-- C5 amended: with an existing script the child is launched with the
parent environment where `MAX_ITERATIONS` is set to "1" only when the
parent does not already define it (an existing parent value is preserved
unchanged); the child stdin receives one seed line — the supplied seed or
the default calibration prompt — followed by the "exit" termination token,
and the parent waits at most 120 seconds capturing stdout and stderr
(whenever `Popen` itself did not raise). -/
theorem c5_amended_launch_protocol (ctx : InvokerCtx) (seed : Option String)
    (h : ctx.scriptExists = true) :
    ((run_self_improving_prompt_once ctx seed).childEnv
        = some (setdefaultEnv ctx.parentEnv "MAX_ITERATIONS" "1"))
    ∧ (lookupEnv ctx.parentEnv "MAX_ITERATIONS" = none →
        (run_self_improving_prompt_once ctx seed).childEnv.map
          (fun env => lookupEnv env "MAX_ITERATIONS") = some (some "1"))
    ∧ (∀ v, lookupEnv ctx.parentEnv "MAX_ITERATIONS" = some v →
        (run_self_improving_prompt_once ctx seed).childEnv = some ctx.parentEnv)
    ∧ ((∀ m, ctx.launch ≠ .launchError m) →
        (run_self_improving_prompt_once ctx seed).stdinData
            = some ((seed.getD defaultSeed) ++ "\nexit\n")
          ∧ (run_self_improving_prompt_once ctx seed).timeoutSeconds = some 120) := by
  refine ⟨?_, ?_, ?_, ?_⟩
  · cases hl : ctx.launch <;> simp [run_self_improving_prompt_once, h, hl]
  · intro hm
    have hs := lookupEnv_setdefault_self ctx.parentEnv "MAX_ITERATIONS" "1" hm
    cases hl : ctx.launch <;> simp [run_self_improving_prompt_once, h, hl, hs]
  · intro v hv
    have hs : setdefaultEnv ctx.parentEnv "MAX_ITERATIONS" "1" = ctx.parentEnv := by
      simp [setdefaultEnv, hv]
    cases hl : ctx.launch <;> simp [run_self_improving_prompt_once, h, hl, hs]
  · intro hm
    cases hl : ctx.launch with
    | launchError m => exact absurd hl (hm m)
    | timeoutExpired => simp [run_self_improving_prompt_once, h, hl]
    | completed out err code => simp [run_self_improving_prompt_once, h, hl]

/-- C5 amended witness: the concrete clean-child context receives the
setdefault environment. -/
theorem c5_amended_witness :
    (run_self_improving_prompt_once ctxChildOk none).childEnv
      = some (setdefaultEnv ([] : Env) "MAX_ITERATIONS" "1") :=
  (c5_amended_launch_protocol ctxChildOk none rfl).1

/-- C6: the stop flag starts false; a loop pass updates it to the old flag
or-ed with the delivered signal, so only the installed handler ever sets
it and nothing resets it (monotone false-to-true); once it is true any
number of further passes leaves the state unchanged — no scheduler poll,
no new iteration, no time advance — and a signal delivered during pass k
makes every longer run equal to the run of k+1 passes: the loop is in its
terminal STOPPED state within one sleep quantum after the pass (which
includes any in-flight iteration) in which the signal arrived. -/
theorem c6_stop_signal (sig : Nat → Bool) (po : Nat → Except PyExc Unit)
    (cfg : Config) (ctx : InvokerCtx) (I t0 k n m : Nat) (s : DriverState) :
    (initialDriverState I t0).stopFlag = false
    ∧ (tickStep (sig k) po cfg ctx s).stopFlag = (s.stopFlag || sig k)
    ∧ (s.stopFlag = true → driverRunFrom sig po cfg ctx k n s = s)
    ∧ (sig k = true →
        driverRun sig po cfg ctx (k + 1 + m) s = driverRun sig po cfg ctx (k + 1) s) := by
  refine ⟨rfl, tickStep_stopFlag _ _ _ _ _, driverRunFrom_stopped _ _ _ _ _ _ _, ?_⟩
  intro hsig
  unfold driverRun
  rw [driverRunFrom_add sig po cfg ctx 0 (k + 1) m s]
  exact driverRunFrom_stopped sig po cfg ctx (0 + (k + 1)) m _
    (driverRunFrom_signal_sets_flag sig po cfg ctx k s hsig)

/-- C6 witness: with a signal during pass 2, running 7 passes equals
running 3 passes — the loop is terminal right after the signal pass. -/
theorem c6_stop_signal_witness :
    sigAtTwo 2 = true
    ∧ driverRun sigAtTwo plannerAlwaysOk cfgDefault ctxChildOk (2 + 1 + 4)
        (initialDriverState 5 0)
      = driverRun sigAtTwo plannerAlwaysOk cfgDefault ctxChildOk (2 + 1)
        (initialDriverState 5 0) :=
  ⟨rfl, (c6_stop_signal sigAtTwo plannerAlwaysOk cfgDefault ctxChildOk 5 0 2 0 4
    (initialDriverState 5 0)).2.2.2 rfl⟩

/-- C7 counterexample: `load_config` does not validate positivity.  With
`CHECK_INTERVAL_MIN=0` in the environment it returns a configuration whose
interval is 0 — not a positive integer and not a startup failure — though
the claim says the loaded interval is always a positive integer. -/
theorem c7_counterexample :
    (load_config [("CHECK_INTERVAL_MIN", "0")]).toOption
      = some { db_path := "./data/income_ai.db", interval_min := 0,
               enable_llm := false, approvals_enforced := true,
               self_improve_each_loop := false }
    ∧ ¬ ((0 : Int) > 0) := by decide

/-- C7 amended: configuration is loaded by `load_config` before the loop;
the interval is the Python `int()` parse of `CHECK_INTERVAL_MIN`,
defaulting to 30 when the variable is absent; an unparseable value raises
`ValueError` and is fatal at startup — `main` dies in its first statement,
before any loop state exists — but positivity is not validated: zero or
negative parsed values are accepted silently. -/
theorem c7_amended_interval_parsing (env : Env) :
    (lookupEnv env "CHECK_INTERVAL_MIN" = none →
      (load_config env).toOption.map Config.interval_min = some 30)
    ∧ (∀ v n, lookupEnv env "CHECK_INTERVAL_MIN" = some v → parsePyInt v = some n →
      (load_config env).toOption.map Config.interval_min = some n)
    ∧ (∀ v, lookupEnv env "CHECK_INTERVAL_MIN" = some v → parsePyInt v = none →
      load_config env = .error "ValueError: invalid literal for int() with base 10")
    ∧ (∀ msg, load_config env = .error msg → mainStartup env = .fatal msg)
    ∧ (∀ cfg, load_config env = .ok cfg → mainStartup env = .entersLoop cfg) := by
  refine ⟨?_, ?_, ?_, ?_, ?_⟩
  · intro hm
    have h30 : parsePyInt "30" = some (30 : Int) := by decide
    simp [load_config, getenv, hm, h30, Except.toOption]
  · intro v n hv hp
    simp [load_config, getenv, hv, hp, Except.toOption]
  · intro v hv hp
    simp [load_config, getenv, hv, hp]
  · intro msg hmsg
    simp [mainStartup, hmsg]
  · intro cfg hcfg
    simp [mainStartup, hcfg]

/-- C7 amended witness: the empty environment parses to the default 30. -/
theorem c7_amended_witness :
    lookupEnv ([] : Env) "CHECK_INTERVAL_MIN" = none
    ∧ (load_config []).toOption.map Config.interval_min = some 30 :=
  ⟨rfl, (c7_amended_interval_parsing []).1 rfl⟩

/-- C8 (Scheduler contract, modelled from the spec because the `schedule`
library is an external collaborator): `is_due(now)` holds iff `now` has
reached the due time; firing at T sets the due time to T plus the
interval, after which nothing is due at any time from T up to but
excluding T plus the interval — in particular not at T itself, so missed
ticks coalesce into the single firing — and the entry is due again exactly
at T plus the interval. -/
theorem c8_schedule_semantics (e : ScheduleEntry) (T now : Nat)
    (hI : 0 < e.interval) :
    (is_due e now = true ↔ e.nextDue ≤ now)
    ∧ (mark_fired e T).nextDue = T + e.interval
    ∧ (∀ t, T ≤ t → t < T + e.interval → is_due (mark_fired e T) t = false)
    ∧ is_due (mark_fired e T) (T + e.interval) = true
    ∧ is_due (mark_fired e T) T = false := by
  refine ⟨?_, rfl, ?_, ?_, ?_⟩
  · simp [is_due]
  · intro t h1 h2
    simp only [is_due, mark_fired, decide_eq_false_iff_not]
    omega
  · simp [is_due, mark_fired]
  · simp only [is_due, mark_fired, decide_eq_false_iff_not]
    omega

/-- C8 witness: a 60-unit interval fired at time 500 is not due at 559 and
due at 560. -/
theorem c8_schedule_semantics_witness :
    is_due (mark_fired ⟨60, 0⟩ 500) 559 = false
    ∧ is_due (mark_fired ⟨60, 0⟩ 500) 560 = true :=
  ⟨(c8_schedule_semantics ⟨60, 0⟩ 500 559 (by decide)).2.2.1 559 (by decide) (by decide),
   (c8_schedule_semantics ⟨60, 0⟩ 500 560 (by decide)).2.2.2.1⟩

/-- C9 counterexample: the two `load_config` functions disagree on shared
fields.  With `ENFORCE_APPROVALS=yes` the src/main.py variant enforces
approvals (any value other than "false" counts) while the upgraded variant
does not (it requires exactly "true"); with `USE_REAL_OPENAI=true` only
the upgraded variant enables the LLM. -/
theorem c9_counterexample :
    ((load_config [("ENFORCE_APPROVALS", "yes")]).toOption.map
        Config.approvals_enforced = some true)
    ∧ ((load_config_upgraded [("ENFORCE_APPROVALS", "yes")]).toOption.map
        ConfigUpgraded.approvals_enforced = some false)
    ∧ ((load_config [("USE_REAL_OPENAI", "true")]).toOption.map
        Config.enable_llm = some false)
    ∧ ((load_config_upgraded [("USE_REAL_OPENAI", "true")]).toOption.map
        ConfigUpgraded.enable_llm = some true) := by decide

/-- C9 amended: for every environment the two variants agree on the storage
path, the interval and the self-improve flag, and they fail on exactly the
same unparseable intervals; the LLM-enabled and approvals-enforced fields
can disagree (the upgraded variant also honours `USE_REAL_OPENAI`, and the
two parse `ENFORCE_APPROVALS` differently). -/
theorem c9_amended_variant_agreement (env : Env) :
    (∀ a b, load_config env = .ok a → load_config_upgraded env = .ok b →
      a.db_path = b.db_path ∧ a.interval_min = b.interval_min
        ∧ a.self_improve_each_loop = b.run_self_improving_each_loop)
    ∧ ((load_config env).toOption.isSome
        = (load_config_upgraded env).toOption.isSome) := by
  constructor
  · intro a b ha hb
    cases hp : parsePyInt (getenv env "CHECK_INTERVAL_MIN" "30") with
    | none => simp [load_config, hp] at ha
    | some n =>
      simp only [load_config, hp, Except.ok.injEq] at ha
      simp only [load_config_upgraded, hp, Except.ok.injEq] at hb
      cases ha
      cases hb
      exact ⟨rfl, rfl, rfl⟩
  · cases hp : parsePyInt (getenv env "CHECK_INTERVAL_MIN" "30") <;>
      simp [load_config, load_config_upgraded, hp, Except.toOption]

/-- C9 amended witness: in the empty environment the two default
configurations agree on the shared fields of the amended claim. -/
theorem c9_amended_witness :
    cfgDefault.db_path = cfgUpgradedDefault.db_path
    ∧ cfgDefault.interval_min = cfgUpgradedDefault.interval_min
    ∧ cfgDefault.self_improve_each_loop
        = cfgUpgradedDefault.run_self_improving_each_loop :=
  (c9_amended_variant_agreement []).1 cfgDefault cfgUpgradedDefault rfl rfl

/-- C10: `setup_logging` of src/main.py is idempotent.  Starting from a
logger with no handlers, the call attaches exactly one handler — a file
handler on the `LOG_FILE` path when that variable is set, otherwise a
stream handler — and sets level INFO; and for every logger state a second
call returns the result of the first unchanged, attaching nothing. -/
theorem c10_setup_logging_idempotent (lf : Option String) (st st2 : LoggerState)
    (h : st.handlers = []) :
    ((setup_logging lf st).handlers =
      [match lf with | some p => LogHandler.file p | none => LogHandler.stream])
    ∧ (setup_logging lf st).level = some 20
    ∧ setup_logging lf (setup_logging lf st2) = setup_logging lf st2 := by
  refine ⟨?_, ?_, ?_⟩
  · cases lf <;> simp [setup_logging, h]
  · cases lf <;> simp [setup_logging, h]
  · by_cases h2 : st2.handlers = []
    · cases lf <;> simp [setup_logging, h2]
    · simp [setup_logging, h2]

/-- C10 witness: a fresh logger with a configured log file gets exactly the
one file handler. -/
theorem c10_setup_logging_idempotent_witness :
    (setup_logging (some "logs/a.log") ⟨none, []⟩).handlers
      = [LogHandler.file "logs/a.log"] :=
  (c10_setup_logging_idempotent (some "logs/a.log") ⟨none, []⟩ ⟨none, []⟩ rfl).1

end QuantAI
